import Mathlib

/-
Shallow embedding of the Datadog agent Windows CPU core check
(pkg/collector/corechecks/system/cpu_windows.go).

Go float64 arithmetic is modelled by exact rationals (ℚ); the claims under
study are about the algebraic structure of the rate computation, and Go
float64 division by zero (yielding Inf or NaN, never a crash) is analysed
structurally, by tracking which gauges are emitted and with which divisor.
The metric sink (aggregator sender) is modelled as the list of Gauge calls
made during one Run plus a commit flag; the external collaborators
(GetSystemTimes, the gohai cpu-info query, the PDH counter set and its
GetSingleValue) are passed to Run and Configure as explicit results, since
they are OS services outside this repository.
-/

namespace DatadogCPU

/-- Mirror of TimesStat (cpu_windows.go lines 44-49): cumulative CPU time
per category, time units in ticks. Go field type float64 is modelled as ℚ. -/
structure TimesStat where
  cpu    : String
  user   : ℚ
  system : ℚ
  idle   : ℚ
deriving DecidableEq

/-- Mirror of TimesStat.Total (lines 61-64): user + system + idle. -/
def TimesStat.Total (c : TimesStat) : ℚ :=
  c.user + c.system + c.idle

/-- One sender.Gauge call: metric name and value (hostname and tags are
always "" and nil at these call sites and are omitted). -/
structure Gauge where
  name  : String
  value : ℚ
deriving DecidableEq

/-- Mirror of the CPUCheck fields mutated by Configure and Run
(lines 52-58): the logical CPU count, the last normalized cycle count and
the last snapshot. The PDH counter handle field is represented implicitly:
its GetSingleValue outcome is an input of Run. -/
structure CPUCheck where
  nbCPU       : ℚ
  lastNbCycle : ℚ
  lastTimes   : TimesStat
deriving DecidableEq

deriving instance DecidableEq for Except

/-- Everything one Run call produces: the returned error value, the Gauge
calls made, whether sender.Commit was reached, and the check state after
the call. -/
structure RunOutcome where
  result    : Except String Unit
  gauges    : List Gauge
  committed : Bool
  state     : CPUCheck
deriving DecidableEq

/-- Mirror of CPUCheck.Run (lines 67-115). `cpuTimesRes` is the result of
the times() call, `counterRes` the result of c.counter.GetSingleValue().
Error from times(), or an empty slice, returns early: no gauge, no commit,
state unchanged. Otherwise the six category gauges are emitted only when
c.lastNbCycle is nonzero, the interrupt gauge only when the counter read
succeeds, Commit runs, and the state fields are updated unconditionally. -/
def CPUCheck.Run (c : CPUCheck) (cpuTimesRes : Except String (List TimesStat))
    (counterRes : Except String ℚ) : RunOutcome :=
  match cpuTimesRes with
  | .error e => ⟨.error e, [], false, c⟩
  | .ok [] => ⟨.error "no cpu stats retrieve (empty results)", [], false, c⟩
  | .ok (t :: _) =>
    let nbCycle := t.Total / c.nbCPU
    let categoryGauges :=
      if c.lastNbCycle ≠ 0 then
        let toPercent := 100 / (nbCycle - c.lastNbCycle)
        let user := (t.user - c.lastTimes.user) / c.nbCPU
        let system := (t.system - c.lastTimes.system) / c.nbCPU
        let iowait : ℚ := 0
        let idle := (t.idle - c.lastTimes.idle) / c.nbCPU
        let stolen : ℚ := 0
        let guest : ℚ := 0
        [⟨"system.cpu.user", user * toPercent⟩,
         ⟨"system.cpu.system", system * toPercent⟩,
         ⟨"system.cpu.iowait", iowait * toPercent⟩,
         ⟨"system.cpu.idle", idle * toPercent⟩,
         ⟨"system.cpu.stolen", stolen * toPercent⟩,
         ⟨"system.cpu.guest", guest * toPercent⟩]
      else []
    let interruptGauges :=
      match counterRes with
      | .ok v => [⟨"system.cpu.interrupt", v⟩]
      | .error _ => []
    ⟨.ok (), categoryGauges ++ interruptGauges, true,
     { c with lastNbCycle := nbCycle, lastTimes := t }⟩

/-- Go map read info["cpu_logical_processors"]: a missing key yields the
zero value "". The gohai info map is modelled as an association list. -/
def lookupInfo (info : List (String × String)) (k : String) : String :=
  ((info.find? (fun p => p.fst == k)).map Prod.snd).getD ""

/-- Model of Go strconv.ParseFloat at its single call site (line 124),
restricted to the shapes a logical-processor count takes: a nonempty
decimal digit string parses to its value with success; anything else
(including the empty string from a missing map key) returns value 0 and
failure, per the documented ParseFloat contract (f = 0 on syntax error). -/
def parseFloat64 (s : String) : ℚ × Bool :=
  if s.length ≠ 0 ∧ s.toList.all Char.isDigit then
    (((s.toList.foldl (fun acc ch => acc * 10 + (ch.toNat - 48)) 0 : ℕ) : ℚ), true)
  else (0, false)

/-- Mirror of CPUCheck.Configure (lines 118-132). `cpuInfoRes` is the
cpu.GetCpuInfo() result, `counterRes` the pdhutil.GetCounterSet result.
Returns the Go error value together with the check state after the call
(Go mutates the receiver in place, so assignments made before an error
return persist). The ParseFloat error is discarded at the call site, as in
the source. -/
def CPUCheck.Configure (c : CPUCheck)
    (cpuInfoRes : Except String (List (String × String)))
    (counterRes : Except String Unit) : Except String Unit × CPUCheck :=
  match cpuInfoRes with
  | .error _ => (.error "system.CPUCheck: could not query CPU info", c)
  | .ok info =>
    let cpucount := (parseFloat64 (lookupInfo info "cpu_logical_processors")).fst
    let c := { c with nbCPU := cpucount }
    match counterRes with
    | .error e =>
      (.error ("system.CPUCheck could not establish interrupt time counter " ++ e), c)
    | .ok _ => (.ok (), c)

/-- Mirror of cpuFactory (lines 134-138): a fresh CPUCheck with Go
zero-valued fields. -/
def cpuFactory : CPUCheck :=
  ⟨0, 0, ⟨"", 0, 0, 0⟩⟩

/-- Mirror of FILETIME (lines 145-148): two uint32 words, modelled as ℕ
reduced mod 2^32 where they are read. -/
structure FILETIME where
  dwLowDateTime  : ℕ
  dwHighDateTime : ℕ
deriving DecidableEq

/-- The uint64 assembled from a FILETIME at lines 164-166:
uint64(uint64(high) << 32) + uint64(low). -/
def FILETIME.value (ft : FILETIME) : ℕ :=
  (ft.dwHighDateTime % 2 ^ 32) * 2 ^ 32 + ft.dwLowDateTime % 2 ^ 32

/-- Wrapping uint64 subtraction, the meaning of (kernel - idle) at
line 167 for uint64 operands below 2^64. -/
def uint64Sub (a b : ℕ) : ℕ :=
  (a + (2 ^ 64 - b % 2 ^ 64)) % 2 ^ 64

/-- Mirror of Times (lines 151-176). `r` is the GetSystemTimes return
value and `lastError` the windows.GetLastError message; the three FILETIME
out-parameters are inputs here. On r = 0 the nil slice and the error are
returned; otherwise one TimesStat is built with system = kernel - idle in
uint64 arithmetic, and the uint64 to float64 conversions are modelled
exactly. -/
def Times (r : ℕ) (lpIdleTime lpKernelTime lpUserTime : FILETIME)
    (lastError : String) : Except String (List TimesStat) :=
  if r = 0 then .error lastError
  else
    let idle := lpIdleTime.value
    let user := lpUserTime.value
    let kernel := lpKernelTime.value
    let system := uint64Sub kernel idle
    .ok [⟨"cpu-total", (user : ℚ), (system : ℚ), (idle : ℚ)⟩]

/-- Any FILETIME assembles to a value below 2^64. -/
theorem FILETIME.value_lt (ft : FILETIME) : ft.value < 2 ^ 64 := by
  have h1 : ft.dwHighDateTime % 2 ^ 32 < 2 ^ 32 := Nat.mod_lt _ (by norm_num)
  have h2 : ft.dwLowDateTime % 2 ^ 32 < 2 ^ 32 := Nat.mod_lt _ (by norm_num)
  unfold FILETIME.value
  nlinarith

/-- Wrapping uint64 subtraction agrees with truncated subtraction when the
subtrahend is not larger, and wraps by 2^64 otherwise. -/
theorem uint64Sub_eq {a b : ℕ} (ha : a < 2 ^ 64) (hb : b < 2 ^ 64) :
    uint64Sub a b = if b ≤ a then a - b else a + 2 ^ 64 - b := by
  unfold uint64Sub
  rw [Nat.mod_eq_of_lt hb]
  split
  · omega
  · omega

/-- Claim C1, amended: with a stored baseline prev whose normalized cycle
count prev.Total / n is nonzero, and delta_cycles strictly positive, Run
emits the six category gauges with values
rate c = ((curr c - prev c) / n) * (100 / delta_cycles) for user, system
and idle, and exactly 0 for iowait, stolen and guest. -/
theorem run_emits_claimed_rate_formula (n : ℚ) (prev curr : TimesStat)
    (counterRes : Except String ℚ)
    (hn : 0 < n) (hprev : prev.Total / n ≠ 0)
    (hdelta : 0 < (curr.Total - prev.Total) / n) :
    (CPUCheck.Run ⟨n, prev.Total / n, prev⟩ (.ok [curr]) counterRes).gauges.take 6 =
      [⟨"system.cpu.user",
        ((curr.user - prev.user) / n) * (100 / ((curr.Total - prev.Total) / n))⟩,
       ⟨"system.cpu.system",
        ((curr.system - prev.system) / n) * (100 / ((curr.Total - prev.Total) / n))⟩,
       ⟨"system.cpu.iowait", 0⟩,
       ⟨"system.cpu.idle",
        ((curr.idle - prev.idle) / n) * (100 / ((curr.Total - prev.Total) / n))⟩,
       ⟨"system.cpu.stolen", 0⟩,
       ⟨"system.cpu.guest", 0⟩] := by
  simp [CPUCheck.Run, hprev, List.take, div_sub_div_same]

/-- Counterexample to claim C1 as stated: with the stored baseline being
the all-zero snapshot (total ticks 0, so the stored normalized cycle count
is 0), delta_cycles = 10 > 0 and yet Run emits no gauge at all, in
particular not the user gauge value 100 the claimed formula predicts. -/
theorem run_zero_total_baseline_no_emission :
    (0 : ℚ) <
      ((⟨"cpu-total", 40, 0, 0⟩ : TimesStat).Total -
        (⟨"cpu-total", 0, 0, 0⟩ : TimesStat).Total) / 4 ∧
    (CPUCheck.Run ⟨4, (⟨"cpu-total", 0, 0, 0⟩ : TimesStat).Total / 4,
        ⟨"cpu-total", 0, 0, 0⟩⟩
      (.ok [⟨"cpu-total", 40, 0, 0⟩]) (.error "na")).gauges = [] := by
  constructor
  · norm_num [TimesStat.Total]
  · norm_num [CPUCheck.Run, TimesStat.Total]

/-- Witness for claim C1 at the scenario of the spec: n = 4,
prev = (100, 50, 850), curr = (140, 70, 990); the emitted gauges are
user 20, system 10, idle 70, iowait 0, stolen 0, guest 0. -/
theorem run_emits_claimed_rate_formula_witness :
    (0 : ℚ) < 4 ∧
    (⟨"cpu-total", 100, 50, 850⟩ : TimesStat).Total / 4 ≠ 0 ∧
    (0 : ℚ) <
      ((⟨"cpu-total", 140, 70, 990⟩ : TimesStat).Total -
        (⟨"cpu-total", 100, 50, 850⟩ : TimesStat).Total) / 4 ∧
    (CPUCheck.Run ⟨4, (⟨"cpu-total", 100, 50, 850⟩ : TimesStat).Total / 4,
        ⟨"cpu-total", 100, 50, 850⟩⟩
      (.ok [⟨"cpu-total", 140, 70, 990⟩]) (.error "na")).gauges.take 6 =
      [⟨"system.cpu.user", 20⟩, ⟨"system.cpu.system", 10⟩,
       ⟨"system.cpu.iowait", 0⟩, ⟨"system.cpu.idle", 70⟩,
       ⟨"system.cpu.stolen", 0⟩, ⟨"system.cpu.guest", 0⟩] := by
  refine ⟨by norm_num, by norm_num [TimesStat.Total], by norm_num [TimesStat.Total], ?_⟩
  have h := run_emits_claimed_rate_formula 4 ⟨"cpu-total", 100, 50, 850⟩
    ⟨"cpu-total", 140, 70, 990⟩ (.error "na") (by norm_num)
    (by norm_num [TimesStat.Total]) (by norm_num [TimesStat.Total])
  rw [h]
  norm_num [TimesStat.Total]

/-- Claim C2: the first Run after a successful Configure emits at most the
interrupt gauge (every emitted gauge is named system.cpu.interrupt, so no
category-rate gauge appears) and unconditionally stores the sampled
snapshot and its normalized cycle count as the new baseline. -/
theorem first_run_seeds_state_no_category_gauges
    (infoRes : Except String (List (String × String)))
    (counterRes0 : Except String Unit) (c : CPUCheck) (t : TimesStat)
    (counterRes : Except String ℚ)
    (hconf : CPUCheck.Configure cpuFactory infoRes counterRes0 = (.ok (), c)) :
    ((CPUCheck.Run c (.ok [t]) counterRes).gauges.all
      (fun g => g.name == "system.cpu.interrupt")) = true ∧
    (CPUCheck.Run c (.ok [t]) counterRes).state.lastTimes = t ∧
    (CPUCheck.Run c (.ok [t]) counterRes).state.lastNbCycle = t.Total / c.nbCPU := by
  have hzero : c.lastNbCycle = 0 := by
    rcases infoRes with e | info
    · simp [CPUCheck.Configure] at hconf
    · rcases counterRes0 with e0 | u
      · simp [CPUCheck.Configure] at hconf
      · simp [CPUCheck.Configure] at hconf
        subst hconf
        simp [cpuFactory]
  rcases counterRes with e1 | v <;> simp [CPUCheck.Run, hzero]

/-- Witness for claim C2: Configure from the factory state with a cpu
count of 4 and a healthy counter set, then a first Run; only the
interrupt gauge is emitted and the state is seeded with the sample. -/
theorem first_run_seeds_state_no_category_gauges_witness :
    CPUCheck.Configure cpuFactory (.ok [("cpu_logical_processors", "4")]) (.ok ()) =
      (.ok (), ⟨4, 0, ⟨"", 0, 0, 0⟩⟩) ∧
    (((CPUCheck.Run (⟨4, 0, ⟨"", 0, 0, 0⟩⟩ : CPUCheck)
        (.ok [⟨"cpu-total", 100, 50, 850⟩]) (.ok 1)).gauges.all
      (fun g => g.name == "system.cpu.interrupt")) = true ∧
    (CPUCheck.Run (⟨4, 0, ⟨"", 0, 0, 0⟩⟩ : CPUCheck)
        (.ok [⟨"cpu-total", 100, 50, 850⟩]) (.ok 1)).state.lastTimes =
      ⟨"cpu-total", 100, 50, 850⟩ ∧
    (CPUCheck.Run (⟨4, 0, ⟨"", 0, 0, 0⟩⟩ : CPUCheck)
        (.ok [⟨"cpu-total", 100, 50, 850⟩]) (.ok 1)).state.lastNbCycle =
      (⟨"cpu-total", 100, 50, 850⟩ : TimesStat).Total /
        (⟨4, 0, ⟨"", 0, 0, 0⟩⟩ : CPUCheck).nbCPU) := by
  have hconf : CPUCheck.Configure cpuFactory
      (.ok [("cpu_logical_processors", "4")]) (.ok ()) =
      (.ok (), ⟨4, 0, ⟨"", 0, 0, 0⟩⟩) := by
    norm_num [CPUCheck.Configure, lookupInfo, parseFloat64, cpuFactory]
    decide
  exact ⟨hconf, first_run_seeds_state_no_category_gauges
    (.ok [("cpu_logical_processors", "4")]) (.ok ()) ⟨4, 0, ⟨"", 0, 0, 0⟩⟩
    ⟨"cpu-total", 100, 50, 850⟩ (.ok 1) hconf⟩

/-- Counterexample to claim C3 as stated: with a proper stored baseline
and an identical current sample (delta_cycles = 0), Run still emits the
six category gauges, so the claimed graceful skip of emission does not
happen; the divisor of the toPercent factor is zero on this input. -/
theorem zero_delta_run_still_emits :
    (⟨"cpu-total", 100, 50, 850⟩ : TimesStat).Total / 4 - (250 : ℚ) = 0 ∧
    "system.cpu.user" ∈ ((CPUCheck.Run ⟨4, 250, ⟨"cpu-total", 100, 50, 850⟩⟩
      (.ok [⟨"cpu-total", 100, 50, 850⟩]) (.error "na")).gauges.map Gauge.name) := by
  constructor
  · norm_num [TimesStat.Total]
  · norm_num [CPUCheck.Run, TimesStat.Total]

/-- Claim C3, amended: on a run whose sample yields the same per-CPU cycle
count as the stored baseline, Run does not fail (it returns success, the
division by the zero delta being total in this model as it is non-trapping
for Go float64), and it still advances the stored snapshot and cycle
count; but it does emit the six category gauges, because the code only
guards against a missing baseline, not against a zero delta. -/
theorem zero_delta_run_emits_and_advances (c : CPUCheck) (t : TimesStat)
    (counterRes : Except String ℚ)
    (hbase : c.lastNbCycle ≠ 0) (hsame : t.Total / c.nbCPU - c.lastNbCycle = 0) :
    (CPUCheck.Run c (.ok [t]) counterRes).result = .ok () ∧
    ((CPUCheck.Run c (.ok [t]) counterRes).gauges.take 6).map Gauge.name =
      ["system.cpu.user", "system.cpu.system", "system.cpu.iowait",
       "system.cpu.idle", "system.cpu.stolen", "system.cpu.guest"] ∧
    (CPUCheck.Run c (.ok [t]) counterRes).state.lastTimes = t ∧
    (CPUCheck.Run c (.ok [t]) counterRes).state.lastNbCycle = t.Total / c.nbCPU := by
  simp [CPUCheck.Run, hbase, List.take]

/-- Witness for claim C3 on two identical snapshots with baseline cycle
count 250 and 4 logical CPUs. -/
theorem zero_delta_run_emits_and_advances_witness :
    (250 : ℚ) ≠ 0 ∧
    ((⟨"cpu-total", 100, 50, 850⟩ : TimesStat).Total / 4 - (250 : ℚ) = 0) ∧
    ((CPUCheck.Run ⟨4, 250, ⟨"cpu-total", 100, 50, 850⟩⟩
        (.ok [⟨"cpu-total", 100, 50, 850⟩]) (.error "na")).result = .ok () ∧
    ((CPUCheck.Run ⟨4, 250, ⟨"cpu-total", 100, 50, 850⟩⟩
        (.ok [⟨"cpu-total", 100, 50, 850⟩]) (.error "na")).gauges.take 6).map Gauge.name =
      ["system.cpu.user", "system.cpu.system", "system.cpu.iowait",
       "system.cpu.idle", "system.cpu.stolen", "system.cpu.guest"] ∧
    (CPUCheck.Run ⟨4, 250, ⟨"cpu-total", 100, 50, 850⟩⟩
        (.ok [⟨"cpu-total", 100, 50, 850⟩]) (.error "na")).state.lastTimes =
      ⟨"cpu-total", 100, 50, 850⟩ ∧
    (CPUCheck.Run ⟨4, 250, ⟨"cpu-total", 100, 50, 850⟩⟩
        (.ok [⟨"cpu-total", 100, 50, 850⟩]) (.error "na")).state.lastNbCycle =
      (⟨"cpu-total", 100, 50, 850⟩ : TimesStat).Total / 4) :=
  ⟨by norm_num, by norm_num [TimesStat.Total],
   zero_delta_run_emits_and_advances ⟨4, 250, ⟨"cpu-total", 100, 50, 850⟩⟩
     ⟨"cpu-total", 100, 50, 850⟩ (.error "na") (by norm_num)
     (by norm_num [TimesStat.Total])⟩

/-- Claim C4: when the sampling step fails, Run returns that error, emits
no gauge, never reaches Commit, and leaves the stored snapshot and cycle
count unchanged. -/
theorem sample_error_leaves_state_unchanged (c : CPUCheck) (e : String)
    (counterRes : Except String ℚ) :
    (CPUCheck.Run c (.error e) counterRes).result = .error e ∧
    (CPUCheck.Run c (.error e) counterRes).gauges = [] ∧
    (CPUCheck.Run c (.error e) counterRes).committed = false ∧
    (CPUCheck.Run c (.error e) counterRes).state = c := by
  simp [CPUCheck.Run]

/-- Claim C5: with a prior baseline and a successful sample, a failing
interrupt-counter read is non-fatal: the six category gauges are emitted,
exactly the interrupt gauge is omitted, Commit is reached and Run returns
success. -/
theorem counter_failure_nonfatal (c : CPUCheck) (t : TimesStat) (e : String)
    (h : c.lastNbCycle ≠ 0) :
    (CPUCheck.Run c (.ok [t]) (.error e)).gauges.map Gauge.name =
      ["system.cpu.user", "system.cpu.system", "system.cpu.iowait",
       "system.cpu.idle", "system.cpu.stolen", "system.cpu.guest"] ∧
    (CPUCheck.Run c (.ok [t]) (.error e)).committed = true ∧
    (CPUCheck.Run c (.ok [t]) (.error e)).result = .ok () := by
  simp [CPUCheck.Run, h]

/-- Witness for claim C5 at a concrete baseline and sample with a failing
counter read. -/
theorem counter_failure_nonfatal_witness :
    (250 : ℚ) ≠ 0 ∧
    ((CPUCheck.Run ⟨4, 250, ⟨"cpu-total", 100, 50, 850⟩⟩
        (.ok [⟨"cpu-total", 140, 70, 990⟩]) (.error "boom")).gauges.map Gauge.name =
      ["system.cpu.user", "system.cpu.system", "system.cpu.iowait",
       "system.cpu.idle", "system.cpu.stolen", "system.cpu.guest"] ∧
    (CPUCheck.Run ⟨4, 250, ⟨"cpu-total", 100, 50, 850⟩⟩
        (.ok [⟨"cpu-total", 140, 70, 990⟩]) (.error "boom")).committed = true ∧
    (CPUCheck.Run ⟨4, 250, ⟨"cpu-total", 100, 50, 850⟩⟩
        (.ok [⟨"cpu-total", 140, 70, 990⟩]) (.error "boom")).result = .ok ()) :=
  ⟨by norm_num,
   counter_failure_nonfatal ⟨4, 250, ⟨"cpu-total", 100, 50, 850⟩⟩
     ⟨"cpu-total", 140, 70, 990⟩ "boom" (by norm_num)⟩

/-- Counterexample to claim C6 as stated: when the counter set cannot be
established, Configure does not succeed; it returns an error. -/
theorem configure_counter_failure_not_soft :
    (CPUCheck.Configure cpuFactory (.ok [("cpu_logical_processors", "4")])
      (.error "access denied")).fst ≠ .ok () := by
  simp [CPUCheck.Configure]

/-- Claim C6, amended: a failure to establish the interrupt-time counter
during Configure is fatal to that Configure call: the returned error wraps
the counter error, so the check does not reach the configured state; only
a failing GetSingleValue read during Run is handled softly. -/
theorem configure_counter_failure_returns_error (c : CPUCheck)
    (info : List (String × String)) (e : String) :
    (CPUCheck.Configure c (.ok info) (.error e)).fst =
      .error ("system.CPUCheck could not establish interrupt time counter " ++ e) := rfl

/-- Claim C7: with a stored baseline of nonzero normalized cycle count and
strictly positive delta_cycles, the six emitted category rates are exactly
the six category gauges and their values sum to exactly 100 in exact
rational arithmetic, with no clamping or renormalization. -/
theorem category_rates_sum_to_100 (n : ℚ) (prev curr : TimesStat)
    (counterRes : Except String ℚ)
    (hn : 0 < n) (hprev : prev.Total / n ≠ 0)
    (hdelta : 0 < (curr.Total - prev.Total) / n) :
    ((CPUCheck.Run ⟨n, prev.Total / n, prev⟩ (.ok [curr]) counterRes).gauges.take 6).map
        Gauge.name =
      ["system.cpu.user", "system.cpu.system", "system.cpu.iowait",
       "system.cpu.idle", "system.cpu.stolen", "system.cpu.guest"] ∧
    (((CPUCheck.Run ⟨n, prev.Total / n, prev⟩ (.ok [curr]) counterRes).gauges.take 6).map
        Gauge.value).sum = 100 := by
  have hn' : n ≠ 0 := ne_of_gt hn
  have hd0 : 0 < curr.Total - prev.Total := by
    have h := mul_pos hdelta hn
    rwa [div_mul_cancel₀ _ hn'] at h
  have hd' : curr.Total - prev.Total ≠ 0 := ne_of_gt hd0
  have hd2 : curr.user + curr.system + curr.idle -
      (prev.user + prev.system + prev.idle) ≠ 0 := by
    simpa [TimesStat.Total] using hd'
  constructor
  · simp [CPUCheck.Run, hprev, List.take]
  · simp [CPUCheck.Run, hprev, List.take, div_sub_div_same]
    simp only [TimesStat.Total]
    field_simp
    ring

/-- Witness for claim C7 at the scenario of the spec, where the rates are
20, 10, 0, 70, 0, 0 and sum to 100. -/
theorem category_rates_sum_to_100_witness :
    (0 : ℚ) < 4 ∧
    (⟨"cpu-total", 100, 50, 850⟩ : TimesStat).Total / 4 ≠ 0 ∧
    ((0 : ℚ) <
      ((⟨"cpu-total", 140, 70, 990⟩ : TimesStat).Total -
        (⟨"cpu-total", 100, 50, 850⟩ : TimesStat).Total) / 4) ∧
    (((CPUCheck.Run ⟨4, (⟨"cpu-total", 100, 50, 850⟩ : TimesStat).Total / 4,
          ⟨"cpu-total", 100, 50, 850⟩⟩
        (.ok [⟨"cpu-total", 140, 70, 990⟩]) (.error "na")).gauges.take 6).map
        Gauge.name =
      ["system.cpu.user", "system.cpu.system", "system.cpu.iowait",
       "system.cpu.idle", "system.cpu.stolen", "system.cpu.guest"] ∧
    (((CPUCheck.Run ⟨4, (⟨"cpu-total", 100, 50, 850⟩ : TimesStat).Total / 4,
          ⟨"cpu-total", 100, 50, 850⟩⟩
        (.ok [⟨"cpu-total", 140, 70, 990⟩]) (.error "na")).gauges.take 6).map
        Gauge.value).sum = 100) :=
  ⟨by norm_num, by norm_num [TimesStat.Total], by norm_num [TimesStat.Total],
   category_rates_sum_to_100 4 ⟨"cpu-total", 100, 50, 850⟩
     ⟨"cpu-total", 140, 70, 990⟩ (.error "na") (by norm_num)
     (by norm_num [TimesStat.Total]) (by norm_num [TimesStat.Total])⟩

/-- Claim C8: every successful Times call returns one snapshot whose
system value is the kernel tick count minus the idle tick count, as an
exact subtraction whenever idle does not exceed kernel (the accounting
invariant of the platform); the subtraction is always performed. -/
theorem times_system_eq_kernel_sub_idle (r : ℕ)
    (lpIdleTime lpKernelTime lpUserTime : FILETIME) (lastError : String)
    (hr : r ≠ 0) (hk : lpIdleTime.value ≤ lpKernelTime.value) :
    Times r lpIdleTime lpKernelTime lpUserTime lastError =
      .ok [⟨"cpu-total", (lpUserTime.value : ℚ),
            (lpKernelTime.value : ℚ) - (lpIdleTime.value : ℚ),
            (lpIdleTime.value : ℚ)⟩] := by
  have hs : uint64Sub lpKernelTime.value lpIdleTime.value =
      lpKernelTime.value - lpIdleTime.value := by
    rw [uint64Sub_eq (FILETIME.value_lt _) (FILETIME.value_lt _), if_pos hk]
  simp [Times, hr, hs]
  push_cast [hk]
  ring

/-- Witness for claim C8: idle 100, kernel 300, user 50 give a snapshot
with system 200. -/
theorem times_system_eq_kernel_sub_idle_witness :
    (1 : ℕ) ≠ 0 ∧
    (⟨100, 0⟩ : FILETIME).value ≤ (⟨300, 0⟩ : FILETIME).value ∧
    Times 1 ⟨100, 0⟩ ⟨300, 0⟩ ⟨50, 0⟩ "e" =
      .ok [⟨"cpu-total", ((⟨50, 0⟩ : FILETIME).value : ℚ),
            ((⟨300, 0⟩ : FILETIME).value : ℚ) - ((⟨100, 0⟩ : FILETIME).value : ℚ),
            ((⟨100, 0⟩ : FILETIME).value : ℚ)⟩] :=
  ⟨by norm_num, by decide,
   times_system_eq_kernel_sub_idle 1 ⟨100, 0⟩ ⟨300, 0⟩ ⟨50, 0⟩ "e"
     (by norm_num) (by decide)⟩

/-- Counterexample to claim C9 as stated: a sample with kernel 5 and idle
10 produces the wrapped system value 2^64 - 5 = 18446744073709551611, and
that value silently propagates: a later Run emits a system.cpu.system
gauge computed from it and returns success, with no flagging. -/
theorem wrapped_system_value_propagates_unflagged :
    Times 1 ⟨10, 0⟩ ⟨5, 0⟩ ⟨0, 0⟩ "e" =
      .ok [⟨"cpu-total", 0, 18446744073709551611, 10⟩] ∧
    (CPUCheck.Run ⟨1, 4, ⟨"cpu-total", 4, 0, 0⟩⟩
      (Times 1 ⟨10, 0⟩ ⟨5, 0⟩ ⟨0, 0⟩ "e") (.error "na")).result = .ok () ∧
    ⟨"system.cpu.system", 1844674407370955161100 / 18446744073709551617⟩ ∈
      (CPUCheck.Run ⟨1, 4, ⟨"cpu-total", 4, 0, 0⟩⟩
        (Times 1 ⟨10, 0⟩ ⟨5, 0⟩ ⟨0, 0⟩ "e") (.error "na")).gauges := by
  refine ⟨?_, ?_, ?_⟩
  · norm_num [Times, FILETIME.value, uint64Sub]
  · norm_num [Times, CPUCheck.Run, FILETIME.value, uint64Sub]
  · norm_num [Times, CPUCheck.Run, FILETIME.value, uint64Sub, TimesStat.Total]

/-- Claim C9, amended: when the kernel tick count is below the idle tick
count, the unsigned 64-bit subtraction wraps around: the snapshot records
system = kernel - idle + 2^64, and nothing flags, floors or clamps the
wrapped value on its way into emitted rates. -/
theorem times_kernel_lt_idle_wraps (r : ℕ)
    (lpIdleTime lpKernelTime lpUserTime : FILETIME) (lastError : String)
    (hr : r ≠ 0) (hwrap : lpKernelTime.value < lpIdleTime.value) :
    Times r lpIdleTime lpKernelTime lpUserTime lastError =
      .ok [⟨"cpu-total", (lpUserTime.value : ℚ),
            (lpKernelTime.value : ℚ) - (lpIdleTime.value : ℚ) + 2 ^ 64,
            (lpIdleTime.value : ℚ)⟩] := by
  have hs : uint64Sub lpKernelTime.value lpIdleTime.value =
      lpKernelTime.value + 2 ^ 64 - lpIdleTime.value := by
    rw [uint64Sub_eq (FILETIME.value_lt _) (FILETIME.value_lt _), if_neg (by omega)]
  simp [Times, hr, hs]
  have hle : lpIdleTime.value ≤ lpKernelTime.value + 18446744073709551616 := by
    have := FILETIME.value_lt lpIdleTime
    omega
  rw [Nat.cast_sub hle]
  push_cast
  ring

/-- Witness for the amended claim C9 at idle 10, kernel 5. -/
theorem times_kernel_lt_idle_wraps_witness :
    (1 : ℕ) ≠ 0 ∧
    (⟨5, 0⟩ : FILETIME).value < (⟨10, 0⟩ : FILETIME).value ∧
    Times 1 ⟨10, 0⟩ ⟨5, 0⟩ ⟨0, 0⟩ "w" =
      .ok [⟨"cpu-total", ((⟨0, 0⟩ : FILETIME).value : ℚ),
            ((⟨5, 0⟩ : FILETIME).value : ℚ) - ((⟨10, 0⟩ : FILETIME).value : ℚ) + 2 ^ 64,
            ((⟨10, 0⟩ : FILETIME).value : ℚ)⟩] :=
  ⟨by norm_num, by decide,
   times_kernel_lt_idle_wraps 1 ⟨10, 0⟩ ⟨5, 0⟩ ⟨0, 0⟩ "w" (by norm_num) (by decide)⟩

/-- Claim C10 shows a code bug: when the cpu-info query succeeds but the
logical-processor value is missing (empty map) or unparseable ("four"),
the ParseFloat error is discarded, Configure returns success and the
check is left configured with nbCPU = 0. -/
theorem configure_accepts_unparseable_cpu_count :
    (CPUCheck.Configure cpuFactory (.ok []) (.ok ())).fst = .ok () ∧
    (CPUCheck.Configure cpuFactory (.ok []) (.ok ())).snd.nbCPU = 0 ∧
    (CPUCheck.Configure cpuFactory
      (.ok [("cpu_logical_processors", "four")]) (.ok ())).fst = .ok () ∧
    (CPUCheck.Configure cpuFactory
      (.ok [("cpu_logical_processors", "four")]) (.ok ())).snd.nbCPU = 0 := by
  refine ⟨rfl, by decide, rfl, by decide⟩

end DatadogCPU
